import Mathlib

/-!
Shallow embedding of the rotation control core of `src/data/data.py`
(class `Data`).  The Python instance state becomes an explicit
`DataState` record and every method becomes a function from state to
state (plus its return value).  Upstream network calls
(`statsapi.schedule`, `statsapi.get`, `Standings(...)`) are modelled as
`Except Unit _` values supplied by the caller: `Except.error ()` is a
call that raised, `Except.ok v` is a call that returned `v`.  A Python
exception escaping an operation is modelled as an `Option` result of
`none`; the state component returned alongside it keeps the mutations
performed before the raise, exactly as Python object mutation does.
-/

/-- A game record as returned by the upstream schedule call
(`statsapi.schedule`); `data.py` reads the keys `game_id`, `home_name`,
`away_name` and `status`. -/
structure Game where
  game_id : Nat
  home_name : String
  away_name : String
  status : String
deriving Repr, DecidableEq, Inhabited

/-- The detailed record returned by `statsapi.get("game", ...)`,
restricted to the fields the rotation core reads:
`gameData.status.detailedState`, `liveData.linescore.inningState`,
`gameData.flags.noHitter` and `gameData.flags.perfectGame`. -/
structure GameData where
  detailedState : String
  inningState : String
  noHitter : Bool
  perfectGame : Bool
deriving Repr, DecidableEq, Inhabited

/-- Modelled from the spec: the `Standings` module (`data.standings`) is
not among the source files; per the spec a standings object is the set
of divisions for the sports day, each division being a name plus ordered
rows. -/
structure Division where
  name : String
  rows : List String
deriving Repr, DecidableEq, Inhabited

/-- Modelled from the spec: see `Division`. -/
structure Standings where
  divisions : List Division
deriving Repr, DecidableEq, Inhabited

/-- The configuration fields the rotation core reads
(`self.config.*` in `data.py`).  `demo_date` and `end_of_day` are kept
abstract as a day number and minutes-of-day, see `SimpleTime`. -/
structure Config where
  preferred_teams : List String
  preferred_divisions : List String
  rotation_enabled : Bool
  rotation_only_preferred : Bool
  rotation_preferred_team_live_mid_inning : Bool
  demo_date : Option Int
  end_of_day : Nat
deriving Repr, DecidableEq, Inhabited

/-- The mutable instance state of class `Data`.  `game_data = none`
models the attribute not having been assigned yet (reading it then
raises `AttributeError`); likewise `standings = none` models
`self.standings` never having been set by a successful refresh. -/
structure DataState where
  config : Config
  games : List Game
  current_game_index : Nat
  current_division_index : Nat
  network_issues : Bool
  needs_refresh : Bool
  game_data : Option GameData
  standings : Option Standings
  layout_state : String
deriving Repr, DecidableEq, Inhabited

/-- Modelled from the spec: the `StatusClassifier` (module
`data.status`) and the team-name resolution table
(`data.teams.TEAM_FULL`) are not among the source files.  Per the spec
they are pure predicates over the finite set of provider status strings
and a static short-id-to-full-name lookup table; they are taken here as
abstract parameters threaded through every operation that consults
them. -/
structure Env where
  is_live : String → Bool
  is_inning_break : String → Bool
  warmup_status : String
  teamFull : String → String

/-- A wall-clock instant, as much of a `datetime` as `__parse_today`
inspects: a calendar day number and the minutes elapsed within that
day (the `end_of_day` config is an `"%H:%M"` string). -/
structure SimpleTime where
  day : Int
  minutes : Nat
deriving Repr, DecidableEq, Inhabited

/-- Lexicographic comparison of two instants, as Python compares two
`datetime` values on the same calendar granularity. -/
def dtLt (a b : SimpleTime) : Bool :=
  decide (a.day < b.day) || (a.day == b.day && decide (a.minutes < b.minutes))

/-- `Data.__parse_today`: a configured demo date is returned verbatim;
otherwise the result is today's date, moved one day back while the
configured end-of-day instant (placed on today's date) is still in the
future.  Only the calendar day of the result is ever consumed (via
`Data.date`), so the function returns the day number. -/
def parse_today (cfg : Config) (now : SimpleTime) : Int :=
  match cfg.demo_date with
  | some d => d
  | none =>
      if dtLt now { day := now.day, minutes := cfg.end_of_day } then now.day - 1
      else now.day

/-- `Data.current_game`: `self.games[self.current_game_index]`; `none`
models the `IndexError` raised when the index is out of range (in
particular on an empty catalog). -/
def current_game (st : DataState) : Option Game :=
  st.games.get? st.current_game_index

/-- `Data.__next_game_index`: increment the cursor, wrapping to 0 once
it reaches the catalog length. -/
def next_game_index (st : DataState) : Nat :=
  let counter := st.current_game_index + 1
  if counter ≥ st.games.length then 0 else counter

/-- `Data.__next_division_index`: same wrap-around increment over the
configured `preferred_divisions`. -/
def next_division_index (st : DataState) : Nat :=
  let counter := st.current_division_index + 1
  if counter ≥ st.config.preferred_divisions.length then 0 else counter

/-- `Data.is_offday_for_preferred_team`: true when no preferred team is
configured, else true iff no game in the catalog names the resolved
first preferred team as home or away. -/
def is_offday_for_preferred_team (env : Env) (st : DataState) : Bool :=
  match st.config.preferred_teams with
  | [] => true
  | t :: _ =>
      !(st.games.any fun g =>
          g.away_name == env.teamFull t || g.home_name == env.teamFull t)

/-- `Data.is_offday`: true iff the catalog is empty. -/
def is_offday (st : DataState) : Bool :=
  st.games.length == 0

/-- The index comprehension inside `Data.__game_index_for`:
`[i for i, game in enumerate(self.games) if team_name in [away, home]]`,
i.e. the indices `i` below the catalog length whose game names the
team. -/
def team_idxs (st : DataState) (full : String) : List Nat :=
  (List.range st.games.length).filter fun i =>
    (st.games.getD i default).away_name == full
      || (st.games.getD i default).home_name == full

/-- `Data.__game_index_for`: resolve the team name, collect the matching
catalog indices; if there are any, take the first one whose catalog
status is classified live, else the first match; with no match return
the current index unchanged. -/
def game_index_for (env : Env) (st : DataState) (team_name : String) : Nat :=
  let full := env.teamFull team_name
  match team_idxs st full with
  | [] => st.current_game_index
  | j :: _ =>
      match (team_idxs st full).find? (fun i => env.is_live (st.games.getD i default).status) with
      | some i => i
      | none => j

/-- `Data.game_index_for_preferred_team`: with no preferred team
configured, the current index unchanged; else delegate to
`__game_index_for` on the first preferred team. -/
def game_index_for_preferred_team (env : Env) (st : DataState) : Nat :=
  match st.config.preferred_teams with
  | [] => st.current_game_index
  | t :: _ => game_index_for env st t

/-- `Data.__filter_list_of_games`: keep the games whose away or home
name intersects the set of resolved preferred team names. -/
def filter_list_of_games (env : Env) (games : List Game) (filter_teams : List String) :
    List Game :=
  let teams := filter_teams.map env.teamFull
  games.filter fun game => teams.contains game.away_name || teams.contains game.home_name

/-- `Data.__get_games`: on a failed schedule call set the network flag
and return the empty list; on success clear the flag and return the
provider's list, filtered to preferred teams when
`rotation_only_preferred` is set. -/
def get_games (env : Env) (sched : Except Unit (List Game)) (st : DataState) :
    DataState × List Game :=
  match sched with
  | Except.error _ => ({ st with network_issues := true }, [])
  | Except.ok all_games =>
      ({ st with network_issues := false },
        if st.config.rotation_only_preferred then
          filter_list_of_games env all_games st.config.preferred_teams
        else all_games)

/-- `Data.refresh_games`: replace the catalog with the result of
`__get_games` (the refresh timestamp is not modelled). -/
def refresh_games (env : Env) (sched : Except Unit (List Game)) (st : DataState) :
    DataState :=
  let r := get_games env sched st
  { r.1 with games := r.2 }

/-- `Data.refresh_standings`: on success replace the standings object
wholesale; on failure leave the previous object (and everything else)
untouched. -/
def refresh_standings (fetch : Except Unit Standings) (st : DataState) : DataState :=
  match fetch with
  | Except.ok s => { st with standings := some s }
  | Except.error _ => st

/-- `Data.__standings_for`: `next(d for d in divisions if d.name == name)`;
`none` models the `StopIteration` raised when the name is absent, or the
`AttributeError` when no standings were ever fetched. -/
def standings_for (st : DataState) (division_name : String) : Option Division :=
  match st.standings with
  | none => none
  | some s => s.divisions.find? fun d => d.name == division_name

/-- `Data.current_standings`: look up the division named by the cursor
into `preferred_divisions`; `none` models the `IndexError` on an
out-of-range cursor or the lookup failures of `__standings_for`. -/
def current_standings (st : DataState) : Option Division :=
  match st.config.preferred_divisions.get? st.current_division_index with
  | none => none
  | some nm => standings_for st nm

/-- `Data.advance_to_next_standings`: bump the division cursor, then
return the (possibly failing) current division lookup. -/
def advance_to_next_standings (st : DataState) : DataState × Option Division :=
  let st1 := { st with current_division_index := next_division_index st }
  (st1, current_standings st1)

/-- Modelled from the spec: the layout collaborator (module
`data.layout`) is not among the source files; per the spec it accepts
one display state out of normal, warm-up, no-hitter-in-progress and
perfect-game-in-progress, the last setter call winning. -/
def LAYOUT_STATE_NONE : String := "none"

/-- Modelled from the spec: see `LAYOUT_STATE_NONE`. -/
def LAYOUT_STATE_WARMUP : String := "warmup"

/-- Modelled from the spec: see `LAYOUT_STATE_NONE`. -/
def LAYOUT_STATE_NOHIT : String := "nohitter"

/-- Modelled from the spec: see `LAYOUT_STATE_NONE`. -/
def LAYOUT_STATE_PERFECT : String := "perfect_game"

/-- The layout state `Data.__update_layout_state` leaves behind for a
given detail record: reset, then warm-up, no-hitter and perfect-game in
that order, each overriding the previous when its condition holds. -/
def layout_state_for (env : Env) (gd : GameData) : String :=
  let s := LAYOUT_STATE_NONE
  let s := if gd.detailedState == env.warmup_status then LAYOUT_STATE_WARMUP else s
  let s := if gd.noHitter then LAYOUT_STATE_NOHIT else s
  let s := if gd.perfectGame then LAYOUT_STATE_PERFECT else s
  s

/-- `Data.__update_layout_state`: reads `self.game_data`; `none` models
the raise when no detail record was ever stored. -/
def update_layout_state (env : Env) (st : DataState) : Option DataState :=
  match st.game_data with
  | none => none
  | some gd => some { st with layout_state := layout_state_for env gd }

/-- `Data.fetch_preferred_team_game_data`: on an off day the method
falls through and returns Python `None` (modelled `some none`: no
exception, value `None`).  Otherwise it indexes the catalog at the
preferred team's index (a raise there is the outer `none`), performs
the detail call, and on failure returns the cached `self.game_data`
(reading a never-assigned attribute raises, before the network flag is
touched); on success it overwrites the flag with success and returns
the fresh record. -/
def fetch_preferred_team_game_data (env : Env) (fd : Nat → Except Unit GameData)
    (st : DataState) : DataState × Option (Option GameData) :=
  if is_offday_for_preferred_team env st then (st, some none)
  else
    match st.games.get? (game_index_for_preferred_team env st) with
    | none => (st, none)
    | some game =>
        match fd game.game_id with
        | Except.error _ =>
            match st.game_data with
            | none => (st, none)
            | some gd0 => ({ st with network_issues := true }, some (some gd0))
        | Except.ok gd => ({ st with network_issues := false }, some (some gd))

/-- The interrupt branch of `Data.advance_to_next_game`: force the
cursor to the preferred team's index, adopt the already-fetched detail,
mark the selection fresh, apply the layout state (raising when the
adopted detail is Python `None`), and return the now-current game. -/
def advance_interrupt (env : Env) (st1 : DataState) (pgd : Option GameData) :
    DataState × Option Game :=
  let st2 := { st1 with
                current_game_index := game_index_for_preferred_team env st1,
                game_data := pgd,
                needs_refresh := false }
  match update_layout_state env st2 with
  | none => (st2, none)
  | some st3 => (st3, current_game st3)

/-- The ordinary round-robin step of `Data.advance_to_next_game`: bump
the cursor with wrap-around and return the now-current game (a raise on
an empty catalog is the `none` in the second component). -/
def advance_fallthrough (st : DataState) : DataState × Option Game :=
  let st2 := { st with current_game_index := next_game_index st }
  (st2, current_game st2)

/-- `Data.advance_to_next_game`: when mid-inning rotation is enabled and
the preferred team plays today, fetch that game's detail; if the fetch
failed (network flag just set) or the game is live and not in an inning
break, take the interrupt branch, else fall through to the round-robin
step.  Exceptions raised inside the preferred fetch propagate
(`none` result, state as mutated so far). -/
def advance_to_next_game (env : Env) (fd : Nat → Except Unit GameData)
    (st : DataState) : DataState × Option Game :=
  if st.config.rotation_preferred_team_live_mid_inning
      && !(is_offday_for_preferred_team env st) then
    match fetch_preferred_team_game_data env fd st with
    | (st1, none) => (st1, none)
    | (st1, some pgd) =>
        if st1.network_issues then advance_interrupt env st1 pgd
        else
          match pgd with
          | none => (st1, none)
          | some gd =>
              if env.is_live gd.detailedState && !(env.is_inning_break gd.inningState) then
                advance_interrupt env st1 (some gd)
              else advance_fallthrough st1
  else advance_fallthrough st

/-- The shared `except:` path of `Data.refresh_game_data`: record the
failure in the network flag and, only when rotation is enabled, move on
to the next game. -/
def refresh_game_data_on_error (env : Env) (fd : Nat → Except Unit GameData)
    (st : DataState) : DataState × Option Unit :=
  let st1 := { st with network_issues := true }
  if st1.config.rotation_enabled then
    let r := advance_to_next_game env fd st1
    (r.1, r.2.map fun _ => ())
  else (st1, some ())

/-- `Data.refresh_game_data`: fetch the detail record for the current
game (an out-of-range current index raises inside the `try` and is
caught like a network error); on success store it, apply the layout
state, mark the selection fresh and clear the network flag; on failure
set the flag and, if rotation is enabled, advance. -/
def refresh_game_data (env : Env) (fd : Nat → Except Unit GameData)
    (st : DataState) : DataState × Option Unit :=
  match current_game st with
  | none => refresh_game_data_on_error env fd st
  | some g =>
      match fd g.game_id with
      | Except.error _ => refresh_game_data_on_error env fd st
      | Except.ok gd =>
          let st1 := { st with game_data := some gd }
          match update_layout_state env st1 with
          | none => (st1, none)
          | some st2 => ({ st2 with needs_refresh := false, network_issues := false }, some ())

/-! ### Supporting lemmas -/

lemma mem_team_idxs_lt {st : DataState} {full : String} {i : Nat}
    (h : i ∈ team_idxs st full) : i < st.games.length := by
  have := List.mem_of_mem_filter h
  exact List.mem_range.mp this

lemma game_index_for_mem (env : Env) (st : DataState) (t : String)
    (h : team_idxs st (env.teamFull t) ≠ []) :
    game_index_for env st t ∈ team_idxs st (env.teamFull t) := by
  cases hidx : team_idxs st (env.teamFull t) with
  | nil => exact absurd hidx h
  | cons j rest =>
      cases hf : (team_idxs st (env.teamFull t)).find?
          (fun i => env.is_live (st.games.getD i default).status) with
      | none =>
          have hf0 := hf
          rw [hidx] at hf0
          simp only [game_index_for, hidx, hf0]
          exact List.mem_cons_self j rest
      | some i =>
          have hf0 := hf
          rw [hidx] at hf0
          simp only [game_index_for, hidx, hf0]
          rw [← hidx]
          exact List.mem_of_find?_eq_some hf

lemma team_idxs_ne_nil (env : Env) (st : DataState) (t : String) (ts : List String)
    (hpref : st.config.preferred_teams = t :: ts)
    (hoff : is_offday_for_preferred_team env st = false) :
    team_idxs st (env.teamFull t) ≠ [] := by
  unfold is_offday_for_preferred_team at hoff
  rw [hpref] at hoff
  simp only [Bool.not_eq_false'] at hoff
  rw [List.any_eq_true] at hoff
  obtain ⟨g, hg, hcond⟩ := hoff
  obtain ⟨i, hlt, hget⟩ := List.getElem_of_mem hg
  intro hnil
  have hmem : i ∈ team_idxs st (env.teamFull t) := by
    unfold team_idxs
    rw [List.mem_filter]
    refine ⟨List.mem_range.mpr hlt, ?_⟩
    have hgd : st.games.getD i default = g := by
      rw [List.getD_eq_getElem?_getD, List.getElem?_eq_getElem hlt]
      rw [hget]
      rfl
    rw [hgd]
    exact hcond
  rw [hnil] at hmem
  exact List.not_mem_nil _ hmem

lemma game_index_for_preferred_team_lt (env : Env) (st : DataState)
    (hoff : is_offday_for_preferred_team env st = false) :
    game_index_for_preferred_team env st < st.games.length := by
  unfold game_index_for_preferred_team
  cases hpref : st.config.preferred_teams with
  | nil =>
      exfalso
      unfold is_offday_for_preferred_team at hoff
      rw [hpref] at hoff
      exact Bool.true_eq_false ▸ hoff
  | cons t ts =>
      have hne := team_idxs_ne_nil env st t ts hpref hoff
      exact mem_team_idxs_lt (game_index_for_mem env st t hne)

lemma wrap_eq_mod (i N : Nat) (h : i < N) :
    (if i + 1 ≥ N then 0 else i + 1) = (i + 1) % N := by
  rcases Nat.lt_or_ge (i + 1) N with h1 | h1
  · rw [if_neg (by omega), Nat.mod_eq_of_lt h1]
  · have hEq : i + 1 = N := by omega
    rw [if_pos h1, hEq, Nat.mod_self]

/-! ### Claim theorems -/

/-- C3: with no demo override, date resolution returns the clock's
calendar day when the end-of-day cutoff placed on that day is already
past (cutoff less than or equal to the clock), and the previous day
while the cutoff is still in the future; a demo override is returned
verbatim, ignoring clock and cutoff. -/
theorem parse_today_resolves (cfg : Config) (now : SimpleTime) :
    (cfg.demo_date = none →
      parse_today cfg now =
        if cfg.end_of_day ≤ now.minutes then now.day else now.day - 1) ∧
    (∀ d, cfg.demo_date = some d → parse_today cfg now = d) := by
  constructor
  · intro h
    simp only [parse_today, h, dtLt]
    rcases Nat.lt_or_ge now.minutes cfg.end_of_day with hlt | hge
    · simp [hlt, Nat.not_le.mpr hlt]
    · simp [Nat.not_lt.mpr hge, hge]
  · intro d h
    simp [parse_today, h]

/-- C3 witness: at day 738000, 00:30 with a 03:00 cutoff the resolver
steps back one day, and a demo override of day 5 wins outright. -/
theorem parse_today_resolves_sample :
    parse_today { preferred_teams := [], preferred_divisions := [],
                  rotation_enabled := true, rotation_only_preferred := false,
                  rotation_preferred_team_live_mid_inning := false,
                  demo_date := none, end_of_day := 180 }
        { day := 738000, minutes := 30 } = 738000 - 1 ∧
    parse_today { preferred_teams := [], preferred_divisions := [],
                  rotation_enabled := true, rotation_only_preferred := false,
                  rotation_preferred_team_live_mid_inning := false,
                  demo_date := some 5, end_of_day := 180 }
        { day := 738000, minutes := 30 } = 5 := by
  constructor
  · have h := (parse_today_resolves
        { preferred_teams := [], preferred_divisions := [],
          rotation_enabled := true, rotation_only_preferred := false,
          rotation_preferred_team_live_mid_inning := false,
          demo_date := none, end_of_day := 180 }
        { day := 738000, minutes := 30 }).1 rfl
    simpa using h
  · exact (parse_today_resolves
        { preferred_teams := [], preferred_divisions := [],
          rotation_enabled := true, rotation_only_preferred := false,
          rotation_preferred_team_live_mid_inning := false,
          demo_date := some 5, end_of_day := 180 }
        { day := 738000, minutes := 30 }).2 5 rfl

/-- C9: outside the preferred-team interrupt, both cursors advance by a
pure wrap-around increment: for an in-range game cursor the next index
is the successor modulo the catalog length, an empty catalog yields 0,
and the division cursor behaves identically over the configured
preferred divisions. -/
theorem next_index_is_mod (st : DataState) :
    (st.current_game_index < st.games.length →
      next_game_index st = (st.current_game_index + 1) % st.games.length) ∧
    (st.games.length = 0 → next_game_index st = 0) ∧
    (st.current_division_index < st.config.preferred_divisions.length →
      next_division_index st =
        (st.current_division_index + 1) % st.config.preferred_divisions.length) ∧
    (st.config.preferred_divisions.length = 0 → next_division_index st = 0) := by
  refine ⟨?_, ?_, ?_, ?_⟩
  · intro h
    simpa only [next_game_index] using wrap_eq_mod _ _ h
  · intro h
    simp [next_game_index, h]
  · intro h
    simpa only [next_division_index] using wrap_eq_mod _ _ h
  · intro h
    simp [next_division_index, h]

lemma find?_append_first {α : Type} (p : α → Bool) (l1 l2 : List α) (a : α)
    (h1 : ∀ x ∈ l1, p x = false) (h2 : p a = true) :
    (l1 ++ a :: l2).find? p = some a := by
  induction l1 with
  | nil =>
      simp only [List.nil_append]
      exact List.find?_cons_of_pos _ h2
  | cons b t ih =>
      have hb : p b = false := h1 b (List.mem_cons_self b t)
      rw [List.cons_append, List.find?_cons_of_neg _ (by simp [hb])]
      exact ih fun x hx => h1 x (List.mem_cons_of_mem b hx)

/-- C4: with no preferred team the selection returns the cursor
unchanged; with a team, among the catalog positions naming the team it
returns the first live one when some matching position is live, else
the first matching position, and with no matching position at all it
returns the cursor unchanged. -/
theorem game_index_selection (env : Env) (st : DataState) (t : String) :
    (st.config.preferred_teams = [] →
      game_index_for_preferred_team env st = st.current_game_index) ∧
    (team_idxs st (env.teamFull t) = [] →
      game_index_for env st t = st.current_game_index) ∧
    (∀ l1 i l2, team_idxs st (env.teamFull t) = l1 ++ i :: l2 →
      (∀ j ∈ l1, env.is_live (st.games.getD j default).status = false) →
      env.is_live (st.games.getD i default).status = true →
      game_index_for env st t = i) ∧
    (∀ i rest, team_idxs st (env.teamFull t) = i :: rest →
      (∀ j ∈ team_idxs st (env.teamFull t),
        env.is_live (st.games.getD j default).status = false) →
      game_index_for env st t = i) := by
  refine ⟨?_, ?_, ?_, ?_⟩
  · intro h
    simp [game_index_for_preferred_team, h]
  · intro h
    simp [game_index_for, h]
  · intro l1 i l2 hsplit h1 h2
    have hfind : (team_idxs st (env.teamFull t)).find?
        (fun k => env.is_live (st.games.getD k default).status) = some i := by
      rw [hsplit]
      exact find?_append_first _ l1 l2 i h1 h2
    cases hidx : team_idxs st (env.teamFull t) with
    | nil =>
        rw [hidx] at hsplit
        exact absurd hsplit.symm (List.append_ne_nil_of_right_ne_nil l1 (by simp))
    | cons j rest =>
        rw [hidx] at hfind
        simp only [game_index_for, hidx]
        rw [hfind]
  · intro i rest hidx hall
    have hfind : (team_idxs st (env.teamFull t)).find?
        (fun k => env.is_live (st.games.getD k default).status) = none := by
      rw [List.find?_eq_none]
      intro x hx
      rw [hall x hx]
      simp
    rw [hidx] at hfind
    simp only [game_index_for, hidx]
    rw [hfind]

/-- C5: a failed schedule call yields an empty catalog (the previous
games are dropped) and a failed network gate; a successful call clears
the gate and yields the provider's list, filtered to the resolved
preferred teams exactly when `rotation_only_preferred` is enabled, a
game surviving the filter iff its away or home name is one of the
resolved names. -/
theorem catalog_refresh_outcome (env : Env) (st : DataState) :
    ((refresh_games env (Except.error ()) st).games = [] ∧
      (refresh_games env (Except.error ()) st).network_issues = true) ∧
    (∀ l, (refresh_games env (Except.ok l) st).network_issues = false ∧
      (refresh_games env (Except.ok l) st).games =
        (if st.config.rotation_only_preferred then
          filter_list_of_games env l st.config.preferred_teams
        else l)) ∧
    (∀ l g, g ∈ filter_list_of_games env l st.config.preferred_teams ↔
      g ∈ l ∧ ((st.config.preferred_teams.map env.teamFull).contains g.away_name
        ∨ (st.config.preferred_teams.map env.teamFull).contains g.home_name)) := by
  refine ⟨⟨rfl, rfl⟩, fun l => ⟨rfl, rfl⟩, fun l g => ?_⟩
  simp [filter_list_of_games, List.mem_filter, Bool.or_eq_true]

/-- C7: a failed standings refresh is a no-op on the whole state, so
after a successful fetch of `s` followed by two failed refreshes the
standings object is still exactly `s` and the current-division lookup
answers as it did right after the successful fetch. -/
theorem standings_failure_frame (st : DataState) (s : Standings) :
    refresh_standings (Except.error ()) (refresh_standings (Except.error ())
        (refresh_standings (Except.ok s) st)) =
      refresh_standings (Except.ok s) st ∧
    (refresh_standings (Except.error ()) (refresh_standings (Except.error ())
        (refresh_standings (Except.ok s) st))).standings = some s ∧
    current_standings (refresh_standings (Except.error ()) (refresh_standings
        (Except.error ()) (refresh_standings (Except.ok s) st))) =
      current_standings (refresh_standings (Except.ok s) st) := by
  exact ⟨rfl, rfl, rfl⟩

/-! ### Concrete fixtures used by witnesses and counterexamples -/

/-- A concrete classifier/lookup environment: status `"Live"` is live,
`"Middle"` and `"End"` are inning breaks, `"NYY"` resolves to the full
provider name. -/
def envT : Env :=
  { is_live := fun s => s == "Live",
    is_inning_break := fun s => s == "Middle" || s == "End",
    warmup_status := "Warmup",
    teamFull := fun t => if t == "NYY" then "New York Yankees" else t }

def cfg0 : Config :=
  { preferred_teams := ["NYY"], preferred_divisions := ["AL East", "AL West"],
    rotation_enabled := true, rotation_only_preferred := false,
    rotation_preferred_team_live_mid_inning := false,
    demo_date := none, end_of_day := 180 }

def gFinalNY : Game :=
  { game_id := 100, home_name := "New York Yankees",
    away_name := "Tampa Bay Rays", status := "Final" }

def gOther : Game :=
  { game_id := 200, home_name := "Chicago Cubs",
    away_name := "New York Mets", status := "Scheduled" }

def gLiveNY : Game :=
  { game_id := 300, home_name := "Boston Red Sox",
    away_name := "New York Yankees", status := "Live" }

def gdLiveTop : GameData :=
  { detailedState := "Live", inningState := "Top",
    noHitter := false, perfectGame := false }

def gdCached : GameData :=
  { detailedState := "Final", inningState := "Bottom",
    noHitter := false, perfectGame := false }

def st0 : DataState :=
  { config := cfg0, games := [gFinalNY, gOther, gLiveNY],
    current_game_index := 1, current_division_index := 0,
    network_issues := false, needs_refresh := true,
    game_data := none, standings := none,
    layout_state := LAYOUT_STATE_NONE }

/-- Detail fetch that always fails. -/
def fdErr : Nat → Except Unit GameData := fun _ => Except.error ()

/-- Detail fetch that succeeds only for game 300 (the live preferred
game), with a live, top-of-inning record. -/
def fdC2 : Nat → Except Unit GameData := fun id =>
  if id == 300 then Except.ok gdLiveTop else Except.error ()

def stand1 : Standings := { divisions := [{ name := "AL East", rows := ["NYY", "BOS"] }] }

/-! ### Witnesses for the already proved claims -/

/-- C9 witness: on the three-game catalog at cursor 1 the next game
index is 2, and on the two-division list at cursor 0 the next division
index is 1. -/
theorem next_index_is_mod_sample :
    next_game_index st0 = 2 ∧ next_division_index st0 = 1 := by
  constructor
  · rw [(next_index_is_mod st0).1 (by decide)]
    decide
  · rw [(next_index_is_mod st0).2.2.1 (by decide)]
    decide

/-- C4 witness: the preferred team appears in a final game at position 0
and a live game at position 2; selection returns 2, the first live
match, not the first match. -/
theorem game_index_selection_sample : game_index_for envT st0 "NYY" = 2 := by
  exact (game_index_selection envT st0 "NYY").2.2.1 [0] 2 []
    (by decide) (by decide) (by decide)

/-- C8 counterexample: the standings refresh does not write the network
gate at all — after a failed standings call on a state whose gate is
clear, the gate is still clear, not failed. -/
theorem network_gate_overwrite_cx :
    ¬ (refresh_standings (Except.error ()) st0).network_issues = true := by
  decide

/-- C8 (amended): the games-list call and the game-detail call overwrite
the network gate with their own outcome whatever its previous value
(detail failure stated here for the rotation-disabled path, where no
further upstream call follows); the standings refresh, by contrast,
leaves the gate unchanged on success and failure alike. -/
theorem network_gate_overwrite (env : Env) (st : DataState) :
    ((refresh_games env (Except.error ()) st).network_issues = true) ∧
    (∀ l, (refresh_games env (Except.ok l) st).network_issues = false) ∧
    (∀ fd pg gd, current_game st = some pg → fd pg.game_id = Except.ok gd →
      (refresh_game_data env fd st).1.network_issues = false) ∧
    (∀ fd pg, current_game st = some pg → fd pg.game_id = Except.error () →
      st.config.rotation_enabled = false →
      (refresh_game_data env fd st).1.network_issues = true) ∧
    (∀ f, (refresh_standings f st).network_issues = st.network_issues) := by
  refine ⟨rfl, fun l => rfl, ?_, ?_, ?_⟩
  · intro fd pg gd hget hfd
    simp [refresh_game_data, hget, hfd, update_layout_state]
  · intro fd pg hget hfd hrot
    simp only [refresh_game_data, hget, hfd, refresh_game_data_on_error]
    rw [if_neg (by simp [hrot])]
  · intro f
    cases f <;> rfl

/-- C8 witness: with the catalog cursor on the live game and a fetch
that succeeds for it, the gate clears; with rotation disabled and a
failing fetch the gate is set; both via the amended theorem. -/
theorem network_gate_overwrite_sample :
    (refresh_game_data envT fdC2 { st0 with current_game_index := 2 }).1.network_issues
      = false ∧
    (refresh_game_data envT fdErr
        { st0 with config := { cfg0 with rotation_enabled := false } }).1.network_issues
      = true := by
  constructor
  · exact (network_gate_overwrite envT { st0 with current_game_index := 2 }).2.2.1
      fdC2 gLiveNY gdLiveTop (by decide) rfl
  · exact (network_gate_overwrite envT
        { st0 with config := { cfg0 with rotation_enabled := false } }).2.2.2.1
      fdErr gOther (by decide) rfl (by decide)


def stEmptyCat : DataState :=
  { st0 with games := [], current_game_index := 0, standings := some stand1 }

/-- C6 counterexample: reading the current game on an empty catalog
raises (models to `none`), and the division lookup raises when the
requested name is absent from the fetched standings. -/
theorem rotation_core_total_cx :
    current_game stEmptyCat = none ∧ standings_for stEmptyCat "AL West" = none := by
  decide

/-- C6 (amended): reading the current game is well-defined exactly under
an in-range cursor (on an empty catalog it raises), and the division
lookup is well-defined when standings were fetched and contain the
configured name (it raises when the name is absent). -/
theorem rotation_core_total_when_present (st : DataState) :
    (st.current_game_index < st.games.length → ∃ g, current_game st = some g) ∧
    (∀ s nm, st.standings = some s → (∃ d ∈ s.divisions, d.name = nm) →
      ∃ d, standings_for st nm = some d) := by
  constructor
  · intro h
    refine ⟨st.games[st.current_game_index], ?_⟩
    unfold current_game
    rw [List.get?_eq_getElem?, List.getElem?_eq_getElem h]
  · intro s nm hs hex
    obtain ⟨d, hd, hname⟩ := hex
    have hred : standings_for st nm = s.divisions.find? fun d2 => d2.name == nm := by
      unfold standings_for
      rw [hs]
    rw [hred]
    cases hf : s.divisions.find? (fun d2 => d2.name == nm) with
    | some d2 => exact ⟨d2, rfl⟩
    | none =>
        rw [List.find?_eq_none] at hf
        have hcontra := hf d hd
        rw [hname] at hcontra
        simp at hcontra

/-- C6 witness: on the three-game catalog with cursor 1 the current game
exists, and the fetched standings contain the looked-up division. -/
theorem rotation_core_total_sample :
    (∃ g, current_game st0 = some g) ∧
    (∃ d, standings_for { st0 with standings := some stand1 } "AL East" = some d) := by
  constructor
  · exact (rotation_core_total_when_present st0).1 (by decide)
  · exact (rotation_core_total_when_present
        { st0 with standings := some stand1 }).2 stand1 "AL East" rfl
      ⟨{ name := "AL East", rows := ["NYY", "BOS"] }, by decide, rfl⟩

/-- C10: the opportunistic preferred-team fetch returns Python `None`
on an off day; when the team has a game and a detail record is cached,
a failing fetch returns exactly that cached record with only the
network gate flipped to failed, and a successful fetch returns the
fresh record with the gate cleared. -/
theorem fetch_preferred_outcome (env : Env) (fd : Nat → Except Unit GameData)
    (st : DataState) :
    (is_offday_for_preferred_team env st = true →
      fetch_preferred_team_game_data env fd st = (st, some none)) ∧
    (∀ pg, is_offday_for_preferred_team env st = false →
      st.games.get? (game_index_for_preferred_team env st) = some pg →
      (∀ gd0, st.game_data = some gd0 → fd pg.game_id = Except.error () →
        fetch_preferred_team_game_data env fd st =
          ({ st with network_issues := true }, some (some gd0))) ∧
      (∀ gd, fd pg.game_id = Except.ok gd →
        fetch_preferred_team_game_data env fd st =
          ({ st with network_issues := false }, some (some gd)))) := by
  constructor
  · intro h
    simp [fetch_preferred_team_game_data, h]
  · intro pg hoff hget
    have hget2 : st.games[game_index_for_preferred_team env st]? = some pg := by
      rw [← List.get?_eq_getElem?]
      exact hget
    constructor
    · intro gd0 hgd0 hfd
      simp [fetch_preferred_team_game_data, hoff, hget2, hfd, hgd0]
    · intro gd hfd
      simp [fetch_preferred_team_game_data, hoff, hget2, hfd]

/-- C10 witness: off day on a catalog without the preferred team; with
the team present, a failed fetch hands back the cached record with the
gate failed and a successful fetch hands back the fresh record with the
gate cleared. -/
theorem fetch_preferred_outcome_sample :
    fetch_preferred_team_game_data envT fdErr { st0 with games := [gOther] } =
      ({ st0 with games := [gOther] }, some none) ∧
    fetch_preferred_team_game_data envT fdErr { st0 with game_data := some gdCached } =
      ({ st0 with game_data := some gdCached, network_issues := true },
        some (some gdCached)) ∧
    fetch_preferred_team_game_data envT fdC2 { st0 with game_data := some gdCached } =
      ({ st0 with game_data := some gdCached, network_issues := false },
        some (some gdLiveTop)) := by
  refine ⟨?_, ?_, ?_⟩
  · exact (fetch_preferred_outcome envT fdErr { st0 with games := [gOther] }).1 (by decide)
  · exact ((fetch_preferred_outcome envT fdErr
        { st0 with game_data := some gdCached }).2 gLiveNY (by decide) (by decide)).1
      gdCached (by decide) rfl
  · exact ((fetch_preferred_outcome envT fdC2
        { st0 with game_data := some gdCached }).2 gLiveNY (by decide) (by decide)).2
      gdLiveTop rfl

lemma next_game_index_lt (st : DataState) (h : 0 < st.games.length) :
    next_game_index st < st.games.length := by
  simp only [next_game_index]
  split
  · exact h
  · omega

lemma next_game_index_eq_mod (st : DataState)
    (h : st.current_game_index < st.games.length) :
    next_game_index st = (st.current_game_index + 1) % st.games.length := by
  simpa only [next_game_index] using wrap_eq_mod _ _ h

lemma advance_no_interrupt (env : Env) (fd : Nat → Except Unit GameData)
    (st : DataState)
    (h : st.config.rotation_preferred_team_live_mid_inning = false ∨
      is_offday_for_preferred_team env st = true) :
    advance_to_next_game env fd st = advance_fallthrough st := by
  unfold advance_to_next_game
  rcases h with h | h
  · rw [if_neg]
    simp [h]
  · rw [if_neg]
    simp [h]

lemma current_game_some (st : DataState)
    (h : st.current_game_index < st.games.length) :
    current_game st = some st.games[st.current_game_index] := by
  unfold current_game
  rw [List.get?_eq_getElem?, List.getElem?_eq_getElem h]

/-- C2 (amended): with a non-empty catalog, an in-range cursor, and the
preferred-team mid-inning interrupt not applicable (flag off or the
preferred team off today), a failed detail fetch for the current game
sets the network gate, propagates no exception, and advances the cursor
by one modulo the catalog length exactly when rotation is enabled
(leaving it unchanged when rotation is disabled). -/
theorem detail_failure_advances (env : Env) (fd : Nat → Except Unit GameData)
    (st : DataState) (pg : Game)
    (hlt : st.current_game_index < st.games.length)
    (hnoint : st.config.rotation_preferred_team_live_mid_inning = false ∨
      is_offday_for_preferred_team env st = true)
    (hget : current_game st = some pg)
    (hfd : fd pg.game_id = Except.error ()) :
    (refresh_game_data env fd st).1.network_issues = true ∧
    (refresh_game_data env fd st).2 = some () ∧
    (refresh_game_data env fd st).1.current_game_index =
      (if st.config.rotation_enabled = true then
        (st.current_game_index + 1) % st.games.length
      else st.current_game_index) := by
  have hred : refresh_game_data env fd st = refresh_game_data_on_error env fd st := by
    simp only [refresh_game_data, hget, hfd]
  cases hrotv : st.config.rotation_enabled with
  | false =>
      have heq : refresh_game_data env fd st = ({ st with network_issues := true }, some ()) := by
        rw [hred]
        simp only [refresh_game_data_on_error]
        rw [if_neg (by simp [hrotv])]
      rw [heq]
      refine ⟨rfl, rfl, ?_⟩
      simp [hrotv]
  | true =>
      have hN : 0 < st.games.length := by omega
      have hnoint2 : ({ st with network_issues := true }
            : DataState).config.rotation_preferred_team_live_mid_inning = false ∨
          is_offday_for_preferred_team env { st with network_issues := true } = true := by
        rcases hnoint with h | h
        · exact Or.inl h
        · exact Or.inr h
      have hres : refresh_game_data env fd st =
          ((advance_fallthrough { st with network_issues := true }).1,
            (advance_fallthrough { st with network_issues := true }).2.map fun _ => ()) := by
        rw [hred]
        simp only [refresh_game_data_on_error]
        rw [if_pos (by simp [hrotv])]
        rw [advance_no_interrupt env fd { st with network_issues := true } hnoint2]
      have h1 : (advance_fallthrough { st with network_issues := true }).1 = { st with network_issues := true, current_game_index := next_game_index st } := rfl
      have h2 : (advance_fallthrough { st with network_issues := true }).2 = current_game { st with network_issues := true, current_game_index := next_game_index st } := rfl
      rw [h1, h2] at hres
      have hsome := current_game_some { st with network_issues := true, current_game_index := next_game_index st } (show next_game_index st < st.games.length from next_game_index_lt st hN)
      rw [hres]
      refine ⟨rfl, ?_, ?_⟩
      · rw [hsome]
        rfl
      · show next_game_index st = _
        rw [if_pos rfl]
        exact next_game_index_eq_mod st hlt

/-- C2 witness: on the three-game catalog with the interrupt flag off,
rotation enabled, cursor 1, and an always-failing fetch, the gate is
set, no exception escapes, and the cursor moves to 2. -/
theorem detail_failure_advances_sample :
    (refresh_game_data envT fdErr st0).1.network_issues = true ∧
    (refresh_game_data envT fdErr st0).2 = some () ∧
    (refresh_game_data envT fdErr st0).1.current_game_index =
      (if st0.config.rotation_enabled = true then
        (st0.current_game_index + 1) % st0.games.length
      else st0.current_game_index) := by
  exact detail_failure_advances envT fdErr st0 gOther (by decide)
    (Or.inl (by decide)) (by decide) rfl

def stC1 : DataState :=
  { st0 with config := { cfg0 with rotation_preferred_team_live_mid_inning := true } }

def stC2x : DataState := { stC1 with current_game_index := 0 }

/-- C2 counterexample: with the mid-inning interrupt applicable, a
failed detail fetch for the current game does not leave the gate failed
nor advance by one — the interrupt's own successful fetch clears the
gate and jumps the cursor to the preferred game instead. -/
theorem detail_failure_advances_cx :
    stC2x.config.rotation_enabled = true ∧
    (refresh_game_data envT fdC2 stC2x).2 = some () ∧
    ¬ ((refresh_game_data envT fdC2 stC2x).1.network_issues = true ∧
       (refresh_game_data envT fdC2 stC2x).1.current_game_index =
         (stC2x.current_game_index + 1) % stC2x.games.length) := by
  decide

/-- C1 (amended): with the mid-inning flag on and the preferred team
playing today, `advance` fetches the preferred game's detail; if the
fetch succeeded with a live, non-inning-break record, or if it failed
while a detail record was previously cached, the cursor is forced to
the preferred game's index and that game is returned (adopting the
fetched or cached record); if the fetch succeeded but the game is not
live mid-inning, the ordinary wrap-around increment happens instead.
(A failed fetch with no previously cached record raises before the
cursor is touched.) -/
theorem advance_mid_inning (env : Env) (fd : Nat → Except Unit GameData)
    (st : DataState)
    (hflag : st.config.rotation_preferred_team_live_mid_inning = true)
    (hoff : is_offday_for_preferred_team env st = false)
    (pg : Game)
    (hpg : st.games.get? (game_index_for_preferred_team env st) = some pg) :
    (∀ gd, fd pg.game_id = Except.ok gd →
      env.is_live gd.detailedState = true →
      env.is_inning_break gd.inningState = false →
      (advance_to_next_game env fd st).1.current_game_index =
          game_index_for_preferred_team env st ∧
      (advance_to_next_game env fd st).2 = some pg ∧
      (advance_to_next_game env fd st).1.game_data = some gd ∧
      (advance_to_next_game env fd st).1.needs_refresh = false) ∧
    (∀ gd0, st.game_data = some gd0 → fd pg.game_id = Except.error () →
      (advance_to_next_game env fd st).1.current_game_index =
          game_index_for_preferred_team env st ∧
      (advance_to_next_game env fd st).2 = some pg ∧
      (advance_to_next_game env fd st).1.game_data = some gd0) ∧
    (∀ gd, fd pg.game_id = Except.ok gd →
      (env.is_live gd.detailedState = false ∨ env.is_inning_break gd.inningState = true) →
      (advance_to_next_game env fd st).1.current_game_index = next_game_index st) := by
  have hc : (st.config.rotation_preferred_team_live_mid_inning
      && !(is_offday_for_preferred_team env st)) = true := by
    rw [hflag, hoff]
    rfl
  have hget2 : st.games[game_index_for_preferred_team env st]? = some pg := by
    rw [← List.get?_eq_getElem?]
    exact hpg
  refine ⟨?_, ?_, ?_⟩
  · intro gd hfd hlive hbreak
    have hfetch : fetch_preferred_team_game_data env fd st =
        ({ st with network_issues := false }, some (some gd)) := by
      simp [fetch_preferred_team_game_data, hoff, hget2, hfd]
    have hA : advance_to_next_game env fd st =
        advance_interrupt env { st with network_issues := false } (some gd) := by
      unfold advance_to_next_game
      rw [if_pos hc, hfetch]
      simp [hlive, hbreak]
    rw [hA]
    exact ⟨rfl, hpg, rfl, rfl⟩
  · intro gd0 hgd0 hfd
    have hfetch : fetch_preferred_team_game_data env fd st =
        ({ st with network_issues := true }, some (some gd0)) := by
      simp [fetch_preferred_team_game_data, hoff, hget2, hfd, hgd0]
    have hA : advance_to_next_game env fd st =
        advance_interrupt env { st with network_issues := true } (some gd0) := by
      unfold advance_to_next_game
      rw [if_pos hc, hfetch]
      simp
    rw [hA]
    exact ⟨rfl, hpg, rfl⟩
  · intro gd hfd hnl
    have hfetch : fetch_preferred_team_game_data env fd st =
        ({ st with network_issues := false }, some (some gd)) := by
      simp [fetch_preferred_team_game_data, hoff, hget2, hfd]
    have hcnd : (env.is_live gd.detailedState
        && !(env.is_inning_break gd.inningState)) = false := by
      rcases hnl with h | h <;> simp [h]
    have hA : advance_to_next_game env fd st =
        advance_fallthrough { st with network_issues := false } := by
      unfold advance_to_next_game
      rw [if_pos hc, hfetch]
      simp [hcnd]
    rw [hA]
    rfl

/-- C1 counterexample: the flag is on, the preferred team plays today
and the preferred fetch fails, yet — because no detail record was ever
cached — `advance` raises while reading the cache and neither moves the
cursor to the preferred index nor returns a game. -/
theorem advance_mid_inning_cx :
    stC1.config.rotation_preferred_team_live_mid_inning = true ∧
    is_offday_for_preferred_team envT stC1 = false ∧
    stC1.games.get? (game_index_for_preferred_team envT stC1) = some gLiveNY ∧
    fdErr gLiveNY.game_id = Except.error () ∧
    (advance_to_next_game envT fdErr stC1).1.current_game_index ≠
      game_index_for_preferred_team envT stC1 ∧
    (advance_to_next_game envT fdErr stC1).2 = none := by
  refine ⟨rfl, by decide, by decide, rfl, by decide, by decide⟩

/-- C1 witness: with the cursor on 1, a live top-of-inning preferred
game at index 2 is force-selected and returned; with a failing fetch
but a cached record the same jump happens. -/
theorem advance_mid_inning_sample :
    (advance_to_next_game envT fdC2 stC1).1.current_game_index = 2 ∧
    (advance_to_next_game envT fdC2 stC1).2 = some gLiveNY ∧
    (advance_to_next_game envT fdErr
        { stC1 with game_data := some gdCached }).1.current_game_index = 2 := by
  have h1 := (advance_mid_inning envT fdC2 stC1 rfl (by decide) gLiveNY (by decide)).1
    gdLiveTop rfl (by decide) (by decide)
  have h2 := (advance_mid_inning envT fdErr { stC1 with game_data := some gdCached }
    rfl (by decide) gLiveNY (by decide)).2.1 gdCached rfl rfl
  refine ⟨?_, h1.2.1, ?_⟩
  · rw [h1.1]
    decide
  · rw [h2.1]
    decide
